import Mathlib

/-!
Shallow embedding of the "Cash Heartbeat" demo's event bus
(`src/lib/eventBus.ts`), its anomaly generation pipeline
(`src/lib/dataGenerator.ts` together with the `useRealTimeSimulation`
hook) and the API gateway's service-health registry
(`src/services/gateway/router.ts`).

Modelling conventions:
* The single JavaScript execution context is modelled by pure state
  passing: every method of the `EventBus` class becomes a function
  `BusState → ... → BusState`.
* `Math.random()` draws and `Date.now()` readings are environment
  inputs, passed as explicit arguments (rationals in `[0,1)`, or the
  already-derived integer the code computes from them, such as the
  measured end-to-end latency sample of a publish).
* Subscriber callbacks are opaque external code.  A callback is
  modelled by an identifier plus the observable behaviour the bus can
  see: whether invoking it throws.  `invoke` returns `Except`, and the
  bus's `try/catch` is the `match` on that result.  Delivery returns
  the trace of invocations `(callback id, payload)` in order.
* JavaScript `Map` objects are association lists in insertion order
  (Map iteration order), with unique keys.
* `Math.round` is `⌊x + 1/2⌋` (JavaScript rounds half away from zero
  towards +∞ for positive halves, i.e. half-up), and JavaScript number
  arithmetic on the small integ&rational values involved is modelled
  exactly by `ℤ`/`ℚ`/`Nat`.
-/

namespace CashHeartbeat

abbrev Topic := String

/-- Payloads are opaque to the bus; we model them by a countable carrier. -/
abbrev Payload := Nat

/-- An external subscriber callback: its identity and whether invoking it
throws (the only behaviour of a callback the bus can observe). -/
structure Cb where
  cbId : Nat
  cbThrows : Bool
deriving Repr, DecidableEq

/-- `Subscription` record of `eventBus.ts`. -/
structure Subscription where
  id : Nat
  topic : Topic
  callback : Cb
  serviceSource : Option String
deriving Repr, DecidableEq

/-- `QueueEvent` record (fields used by the bus). -/
structure QueueEvent where
  id : Nat
  topic : Topic
  payload : Payload
  processed : Bool
  serviceSource : String
  serviceTarget : Option String
deriving Repr, DecidableEq

/-- `QueueMetrics` record of `eventBus.ts`. -/
structure QueueMetrics where
  totalPublished : Nat
  totalConsumed : Nat
  currentDepth : Nat
  avgLatency : Nat
  throughput : Nat
deriving Repr, DecidableEq

/-- The mutable fields of the `EventBus` class.  `nextId` models
`generateId()` (timestamp+random string ids, whose only relevant
property is uniqueness). -/
structure BusState where
  subscribers : List (Topic × List Subscription)
  messageQueue : List QueueEvent
  metrics : QueueMetrics
  latencies : List Nat
  messagesInLastSecond : Nat
  nextId : Nat
deriving Repr, DecidableEq

def initialMetrics : QueueMetrics :=
  { totalPublished := 0, totalConsumed := 0, currentDepth := 0
    avgLatency := 0, throughput := 0 }

/-- A freshly constructed `EventBus`. -/
def initialState : BusState :=
  { subscribers := [], messageQueue := [], metrics := initialMetrics
    latencies := [], messagesInLastSecond := 0, nextId := 0 }

/-- `Map.get` on the subscriber registry (first matching key). -/
def mapLookup (m : List (Topic × List Subscription)) (t : Topic) :
    Option (List Subscription) :=
  match m with
  | [] => none
  | (k, v) :: rest => if k = t then some v else mapLookup rest t

/-- `this.subscribers.get(topic) || []` — subscriptions of a topic. -/
def subsFor (st : BusState) (t : Topic) : List Subscription :=
  (mapLookup st.subscribers t).getD []

/-- `this.subscribers.get(topic)!.push(subscription)` on an existing key. -/
def pushSub (m : List (Topic × List Subscription)) (t : Topic)
    (s : Subscription) : List (Topic × List Subscription) :=
  match m with
  | [] => [(t, [s])]
  | (k, v) :: rest =>
      if k = t then (k, v ++ [s]) :: rest else (k, v) :: pushSub rest t s

/-- `EventBus.subscribe`: mint a fresh id, create the subscription, insert
the topic with an empty list if absent, push the subscription.  Returns
the subscription id and the new state. -/
def subscribe (st : BusState) (t : Topic) (cb : Cb) (src : Option String) :
    Nat × BusState :=
  let sid := st.nextId
  let sub : Subscription := { id := sid, topic := t, callback := cb, serviceSource := src }
  let m := match mapLookup st.subscribers t with
    | some _ => pushSub st.subscribers t sub
    | none => st.subscribers ++ [(t, [sub])]
  (sid, { st with subscribers := m, nextId := sid + 1 })

/-- `subs.findIndex(s => s.id === subscriptionId) ≠ -1` -/
def containsId (subs : List Subscription) (sid : Nat) : Bool :=
  subs.any fun s => s.id = sid

/-- `subs.splice(index, 1)` at the `findIndex` position: drop the first
subscription with the given id. -/
def removeFirst (subs : List Subscription) (sid : Nat) : List Subscription :=
  match subs with
  | [] => []
  | s :: rest => if s.id = sid then rest else s :: removeFirst rest sid

/-- Body of `EventBus.unsubscribe`: scan topics in insertion order, splice
the first subscription matching the id, delete the topic entry if it
became empty, and `break`. -/
def unsubscribeAux (m : List (Topic × List Subscription)) (sid : Nat) :
    List (Topic × List Subscription) :=
  match m with
  | [] => []
  | (k, subs) :: rest =>
      if containsId subs sid then
        let subs' := removeFirst subs sid
        if subs'.isEmpty then rest else (k, subs') :: rest
      else (k, subs) :: unsubscribeAux rest sid

/-- `EventBus.unsubscribe` (no-op when the id is unknown; never throws,
modelled by totality). -/
def unsubscribe (st : BusState) (sid : Nat) : BusState :=
  { st with subscribers := unsubscribeAux st.subscribers sid }

/-- Invoking an external callback: the only way it can fail is by
throwing, which the bus observes as an exception. -/
def invoke (cb : Cb) (_p : Payload) : Except String Unit :=
  if cb.cbThrows then Except.error (String.append "subscriber threw for cb " (toString cb.cbId))
  else Except.ok ()

/-- The `for (const subscriber of subscribers) { try ... catch ... }`
loop of `processMessage`: every callback is invoked with the payload
(recorded in the trace); `totalConsumed` is incremented only when the
callback returns normally; a thrown error is caught and logged, and the
loop continues. -/
def deliverList (subs : List Subscription) (p : Payload) :
    List (Nat × Payload) × Nat :=
  match subs with
  | [] => ([], 0)
  | s :: rest =>
      let consumedHere : Nat :=
        match invoke s.callback p with
        | Except.ok _ => 1
        | Except.error _ => 0
      let d := deliverList rest p
      ((s.callback.cbId, p) :: d.1, consumedHere + d.2)

/-- `this.messageQueue.filter(e => e.id !== event.id)` -/
def removeEvent (q : List QueueEvent) (eid : Nat) : List QueueEvent :=
  q.filter fun e => e.id ≠ eid

/-- `EventBus.processMessage`.  Faithful to the source: when the topic
has no subscribers the method logs and returns EARLY — the event is not
removed from `messageQueue` and `currentDepth` is not updated.  Returns
the new state and the invocation trace. -/
def processMessage (st : BusState) (event : QueueEvent) :
    BusState × List (Nat × Payload) :=
  let subs := (mapLookup st.subscribers event.topic).getD []
  if subs.isEmpty then
    (st, [])
  else
    let d := deliverList subs event.payload
    let q := removeEvent st.messageQueue event.id
    ({ st with
        messageQueue := q
        metrics := { st.metrics with
          totalConsumed := st.metrics.totalConsumed + d.2
          currentDepth := q.length } },
      d.1)

/-- `latencies.push(x); if (latencies.length > 100) latencies.shift()` -/
def pushLatency (l : List Nat) (x : Nat) : List Nat :=
  let l' := l ++ [x]
  if l'.length > 100 then l'.drop 1 else l'

/-- `Math.round(sum / length)` for a window of natural samples:
`⌊sum/len + 1/2⌋` computed with natural division. -/
def avgOf (l : List Nat) : Nat :=
  (2 * l.sum + l.length) / (2 * l.length)

/-- `EventBus.updateAvgLatency` (early return on an empty window). -/
def updateAvgLatency (m : QueueMetrics) (l : List Nat) : QueueMetrics :=
  if l.isEmpty then m else { m with avgLatency := avgOf l }

/-- `EventBus.publish`.  `latSample` is the measured end-to-end latency
`Date.now() - startTime` (an environment input: wall-clock readings).
Returns the state after the returned promise resolves, together with the
invocation trace of the delivery. -/
def publish (st : BusState) (t : Topic) (p : Payload) (src : String)
    (tgt : Option String) (latSample : Nat) :
    BusState × List (Nat × Payload) :=
  let event : QueueEvent :=
    { id := st.nextId, topic := t, payload := p, processed := false
      serviceSource := src, serviceTarget := tgt }
  let q := st.messageQueue ++ [event]
  let st1 := { st with
    messageQueue := q
    metrics := { st.metrics with
      totalPublished := st.metrics.totalPublished + 1
      currentDepth := q.length }
    messagesInLastSecond := st.messagesInLastSecond + 1
    nextId := st.nextId + 1 }
  let r := processMessage st1 event
  let lats := pushLatency r.1.latencies latSample
  ({ r.1 with latencies := lats, metrics := updateAvgLatency r.1.metrics lats }, r.2)

/-- One publish call's inputs (topic, payload, source, target, and the
measured end-to-end latency sample for that publish). -/
structure PubInput where
  topic : Topic
  payload : Payload
  src : String
  tgt : Option String
  latSample : Nat
deriving Repr, DecidableEq

/-- The state after one publish's promise resolves. -/
def publishStep (st : BusState) (i : PubInput) : BusState :=
  (publish st i.topic i.payload i.src i.tgt i.latSample).1

/-- A sequence of publishes, each awaited before the next. -/
def publishSeq (st : BusState) (l : List PubInput) : BusState :=
  l.foldl publishStep st

/-- The last (at most) 100 elements of a list — the rolling window. -/
def window (l : List Nat) : List Nat := l.drop (l.length - 100)

/-- JavaScript `Math.round` on exact rationals: `⌊x + 1/2⌋`. -/
def jround (x : ℚ) : ℤ := ⌊x + 1/2⌋

/-! ### API gateway service-health registry (`src/services/gateway/router.ts`) -/

inductive ServiceStatus
  | healthy
  | degraded
  | down
  | starting
deriving Repr, DecidableEq

/-- `ServiceHealth` record. `lastCheck` is an opaque clock reading. -/
structure ServiceHealth where
  name : String
  status : ServiceStatus
  uptime : String
  latency : ℤ
  lastCheck : Nat
  errorRate : ℚ
deriving Repr, DecidableEq

/-- The static `serviceRegistry` of `APIGateway` (insertion order). -/
def serviceRegistry : List (String × ServiceHealth) :=
  [ ("gateway",
     { name := "API Gateway", status := ServiceStatus.healthy, uptime := "99.98%"
       latency := 12, lastCheck := 0, errorRate := 2/100 }),
    ("transactions",
     { name := "Transaction Service", status := ServiceStatus.healthy, uptime := "99.95%"
       latency := 45, lastCheck := 0, errorRate := 15/100 }),
    ("ml",
     { name := "ML Service", status := ServiceStatus.healthy, uptime := "99.12%"
       latency := 156, lastCheck := 0, errorRate := 45/100 }),
    ("reconciliation",
     { name := "Reconciliation Service", status := ServiceStatus.healthy, uptime := "99.89%"
       latency := 78, lastCheck := 0, errorRate := 8/100 }) ]

/-- `Map.get` on the service registry. -/
def findService (m : List (String × ServiceHealth)) (n : String) :
    Option ServiceHealth :=
  match m with
  | [] => none
  | (k, v) :: rest => if k = n then some v else findService rest n

/-- The single-name path of `APIGateway.getServiceHealth(serviceName)`.
The source dereferences `this.serviceRegistry.get(serviceName)!` with an
unchecked non-null assertion; the actual runtime value for an
unregistered name is `undefined`, modelled as `none`. -/
def getServiceHealth (n : String) : Option ServiceHealth :=
  findService serviceRegistry n

/-- One service's update inside the 1-second `startMetricsCollection`
tick: with the gate draw below 0.1, `latency` becomes
`Math.round(latency + (r1 - 0.5) * 10)` and `errorRate` becomes
`max(0, errorRate + (r2 - 0.5) * 0.1)`; otherwise the record is left
untouched.  `gate`, `r1`, `r2` are the three `Math.random()` draws and
`now` the `new Date()` reading. -/
def tickService (h : ServiceHealth) (gate r1 r2 : ℚ) (now : Nat) :
    ServiceHealth :=
  if gate < 1/10 then
    { h with
        latency := jround ((h.latency : ℚ) + (r1 - 1/2) * 10)
        errorRate := max 0 (h.errorRate + (r2 - 1/2) * (1/10))
        lastCheck := now }
  else h

/-! ### Anomaly generation (`DataGenerator` and `useRealTimeSimulation`) -/

inductive TxType
  | credit
  | debit
deriving Repr, DecidableEq

inductive TxStatus
  | completed
  | pending
deriving Repr, DecidableEq

/-- `Transaction` record (fields used by the anomaly pipeline).
`timestamp` is epoch milliseconds. -/
structure Transaction where
  id : String
  accountId : String
  amount : ℚ
  currency : String
  txType : TxType
  category : String
  merchant : String
  description : String
  status : TxStatus
  timestamp : ℤ
  isAnomaly : Bool
  anomalyScore : Option ℚ
deriving Repr, DecidableEq

inductive AnomalyType
  | duplicate
  | suspicious_amount
  | unusual_timing
  | frequency
deriving Repr, DecidableEq

inductive Severity
  | low
  | medium
  | high
  | critical
deriving Repr, DecidableEq

/-- `Anomaly` record. -/
structure Anomaly where
  id : String
  transaction : Transaction
  type : AnomalyType
  severity : Severity
  description : String
  detectedAt : ℤ
  resolved : Bool
deriving Repr, DecidableEq

/-- The four archetypes in the order both the hook's `anomalyTypes`
array and `generateAnomaly`'s `anomalyTypes` array list them; an index
`k : Fin 4` models `array[Math.floor(Math.random() * 4)]`. -/
def archetypeAt : Fin 4 → AnomalyType
  | 0 => AnomalyType.duplicate
  | 1 => AnomalyType.suspicious_amount
  | 2 => AnomalyType.unusual_timing
  | 3 => AnomalyType.frequency

/-- The fixed severity paired with each archetype in
`generateAnomaly`'s `anomalyTypes` table. -/
def severityFor : AnomalyType → Severity
  | AnomalyType.duplicate => Severity.high
  | AnomalyType.suspicious_amount => Severity.critical
  | AnomalyType.unusual_timing => Severity.medium
  | AnomalyType.frequency => Severity.low

/-- The templated description paired with each archetype in
`generateAnomaly`'s table (`toLocaleString`/`toLocaleTimeString`
formatting modelled as `toString` of the field). -/
def descriptionFor (ty : AnomalyType) (tx : Transaction) : String :=
  match ty with
  | AnomalyType.duplicate =>
      "Potential duplicate payment to " ++ tx.merchant ++
      ". Similar transaction detected 2 hours ago."
  | AnomalyType.suspicious_amount =>
      "Unusually large payment of $" ++ toString tx.amount ++ " to " ++
      tx.merchant ++ ". 450% above average."
  | AnomalyType.unusual_timing =>
      "Transaction at unusual time (" ++ toString tx.timestamp ++
      "). Outside normal business hours."
  | AnomalyType.frequency =>
      "Multiple charges from " ++ tx.merchant ++
      " this week. Possible subscription stacking."

/-- The `switch (anomalyType)` overrides of
`DataGenerator.generateAnomalousTransaction`, spread over the random
base transaction that `generateTransaction(accountId)` returns (`base`
stands for that randomly generated record; `timingTs` is the timestamp
the `unusual_timing` branch computes from `Date.now()`, the random
2-day offset and `setHours(3)`). -/
def applyAnomalyOverrides (base : Transaction) (ty : AnomalyType)
    (timingTs : ℤ) : Transaction :=
  match ty with
  | AnomalyType.duplicate =>
      { base with amount := 149999/100, merchant := "AWS"
                  category := "Software & SaaS", txType := TxType.debit }
  | AnomalyType.suspicious_amount =>
      { base with amount := 478905/10, merchant := "Unknown Vendor"
                  category := "Professional Services", txType := TxType.debit }
  | AnomalyType.unusual_timing =>
      { base with timestamp := timingTs, amount := 2340
                  merchant := "Office Supplies Inc" }
  | AnomalyType.frequency =>
      { base with merchant := "Subscription Service XYZ", amount := 2999/100
                  category := "Software & SaaS", txType := TxType.debit }

/-- `DataGenerator.generateAnomalousTransaction`: apply the archetype's
overrides, mark the transaction anomalous, attach a score
`0.7 + 0.3·scoreDraw`. -/
def generateAnomalousTransaction (base : Transaction) (ty : AnomalyType)
    (timingTs : ℤ) (scoreDraw : ℚ) : Transaction :=
  let tx := applyAnomalyOverrides base ty timingTs
  { tx with isAnomaly := true, anomalyScore := some (scoreDraw * (3/10) + 7/10) }

/-- `DataGenerator.generateAnomaly`: draw `randomFromArray(anomalyTypes)`
— an index `k` INDEPENDENT of whatever made the transaction anomalous —
and build the record from that entry's type, severity and templated
description.  `ctr` is `anomalyIdCounter`, `now` the `new Date()`
reading. -/
def generateAnomaly (tx : Transaction) (k : Fin 4) (ctr : Nat) (now : ℤ) :
    Anomaly :=
  let ty := archetypeAt k
  { id := "anomaly_" ++ toString ctr
    transaction := tx
    type := ty
    severity := severityFor ty
    description := descriptionFor ty tx
    detectedAt := now
    resolved := false }

/-- The 30%-gate branch of `startAnomalyStream` in
`useRealTimeSimulation`: select archetype `archetypeAt kSel`, synthesize
the anomalous transaction, then call `generateAnomaly`, whose own draw
is `kGen`.  The returned record is the payload published on
`alerts.anomaly`. -/
def streamAnomaly (base : Transaction) (kSel kGen : Fin 4) (timingTs : ℤ)
    (scoreDraw : ℚ) (ctr : Nat) (now : ℤ) : Anomaly :=
  generateAnomaly
    (generateAnomalousTransaction base (archetypeAt kSel) timingTs scoreDraw)
    kGen ctr now

/-- One firing of the anomaly emission task: with the gate draw below
0.3 it publishes a synthesized anomaly, otherwise nothing. -/
def anomalyTick (gate : ℚ) (base : Transaction) (kSel kGen : Fin 4)
    (timingTs : ℤ) (scoreDraw : ℚ) (ctr : Nat) (now : ℤ) : Option Anomaly :=
  if gate < 3/10 then some (streamAnomaly base kSel kGen timingTs scoreDraw ctr now)
  else none

/-! ### Concrete states used by scenarios -/

def topicX : Topic := "x"

def topicY : Topic := "y"

def srcSim : String := "RealTimeSimulator"

def cbA : Cb := { cbId := 1, cbThrows := false }

def cbB : Cb := { cbId := 2, cbThrows := false }

/-- Bus with callbacks A and B subscribed (in this order) to topic `x`. -/
def stAB : BusState :=
  (subscribe (subscribe initialState topicX cbA none).2 topicX cbB none).2

/-- Bus with a single subscriber on topic `x` whose callback throws. -/
def stThrow : BusState :=
  (subscribe initialState topicX { cbId := 9, cbThrows := true } none).2

/-- Bus with five subscribers on topic `x`; the third one throws. -/
def st5 : BusState :=
  (subscribe
    (subscribe
      (subscribe
        (subscribe
          (subscribe initialState topicX { cbId := 1, cbThrows := false } none).2
          topicX { cbId := 2, cbThrows := false } none).2
        topicX { cbId := 3, cbThrows := true } none).2
      topicX { cbId := 4, cbThrows := false } none).2
    topicX { cbId := 5, cbThrows := false } none).2

/-! ### Delivery lemmas -/

/-- Every subscriber in the list is invoked with the payload, in order,
whether or not earlier callbacks threw. -/
theorem deliverList_trace (subs : List Subscription) (p : Payload) :
    (deliverList subs p).1 = subs.map fun s => (s.callback.cbId, p) := by
  induction subs with
  | nil => rfl
  | cons s rest ih => simp [deliverList, ih]

/-- `totalConsumed` grows by one per callback that returns normally. -/
theorem deliverList_consumed (subs : List Subscription) (p : Payload) :
    (deliverList subs p).2
      = ((subs.filter fun s => !s.callback.cbThrows).length) := by
  induction subs with
  | nil => rfl
  | cons s rest ih =>
      cases hcb : s.callback.cbThrows <;>
        simp [deliverList, invoke, hcb, ih, List.filter_cons, Nat.add_comm]

theorem updateAvgLatency_totalPublished (m : QueueMetrics) (l : List Nat) :
    (updateAvgLatency m l).totalPublished = m.totalPublished := by
  unfold updateAvgLatency; split <;> rfl

theorem updateAvgLatency_totalConsumed (m : QueueMetrics) (l : List Nat) :
    (updateAvgLatency m l).totalConsumed = m.totalConsumed := by
  unfold updateAvgLatency; split <;> rfl

theorem processMessage_published (st : BusState) (e : QueueEvent) :
    (processMessage st e).1.metrics.totalPublished
      = st.metrics.totalPublished := by
  simp only [processMessage]; split <;> rfl

theorem processMessage_consumed (st : BusState) (e : QueueEvent) :
    (processMessage st e).1.metrics.totalConsumed
      = st.metrics.totalConsumed
        + (deliverList ((mapLookup st.subscribers e.topic).getD []) e.payload).2 := by
  simp only [processMessage]
  split
  · rename_i h
    rw [List.isEmpty_iff] at h
    rw [h]
    simp [deliverList]
  · rfl

theorem processMessage_trace (st : BusState) (e : QueueEvent) :
    (processMessage st e).2
      = ((mapLookup st.subscribers e.topic).getD []).map
          (fun s => (s.callback.cbId, e.payload)) := by
  simp only [processMessage]
  split
  · rename_i h
    rw [List.isEmpty_iff] at h
    rw [h]
    rfl
  · exact deliverList_trace _ _

theorem processMessage_latencies (st : BusState) (e : QueueEvent) :
    (processMessage st e).1.latencies = st.latencies := by
  simp only [processMessage]; split <;> rfl

/-- `totalPublished` is incremented exactly once by a publish. -/
theorem publish_published (st : BusState) (t : Topic) (p : Payload)
    (src : String) (tgt : Option String) (lat : Nat) :
    (publish st t p src tgt lat).1.metrics.totalPublished
      = st.metrics.totalPublished + 1 := by
  simp [publish, updateAvgLatency_totalPublished, processMessage_published]

/-- `totalConsumed` is incremented once per non-throwing subscriber of
the topic. -/
theorem publish_consumed (st : BusState) (t : Topic) (p : Payload)
    (src : String) (tgt : Option String) (lat : Nat) :
    (publish st t p src tgt lat).1.metrics.totalConsumed
      = st.metrics.totalConsumed
        + ((subsFor st t).filter fun s => !s.callback.cbThrows).length := by
  simp [publish, updateAvgLatency_totalConsumed, processMessage_consumed,
    deliverList_consumed, subsFor]

/-- The invocation trace of a publish is exactly the topic's
subscription list (at delivery start) paired with the payload. -/
theorem publish_trace (st : BusState) (t : Topic) (p : Payload)
    (src : String) (tgt : Option String) (lat : Nat) :
    (publish st t p src tgt lat).2
      = (subsFor st t).map fun s => (s.callback.cbId, p) := by
  simp [publish, processMessage_trace, subsFor]

theorem publish_latencies (st : BusState) (t : Topic) (p : Payload)
    (src : String) (tgt : Option String) (lat : Nat) :
    (publish st t p src tgt lat).1.latencies
      = pushLatency st.latencies lat := by
  simp [publish, processMessage_latencies]

theorem pushLatency_ne_nil (l : List Nat) (x : Nat) : pushLatency l x ≠ [] := by
  simp only [pushLatency]
  split
  · rename_i hgt
    intro h
    have hlen := congrArg List.length h
    simp [List.length_drop] at hlen hgt
    subst hlen
    simp at hgt
  · simp

theorem updateAvgLatency_avg (m : QueueMetrics) (l : List Nat) (h : l ≠ []) :
    (updateAvgLatency m l).avgLatency = avgOf l := by
  unfold updateAvgLatency
  rw [if_neg]
  simp [List.isEmpty_iff, h]

/-- After a publish resolves, `avgLatency` is the rounded mean of the
new rolling window. -/
theorem publish_avg (st : BusState) (t : Topic) (p : Payload)
    (src : String) (tgt : Option String) (lat : Nat) :
    (publish st t p src tgt lat).1.metrics.avgLatency
      = avgOf (pushLatency st.latencies lat) := by
  simp [publish, processMessage_latencies, updateAvgLatency_avg,
    pushLatency_ne_nil]

/-! ### Claims C1 – C4 -/

/-- Claim C1 (counterexample): the claim as stated is false — with one
subscriber on topic `x` whose callback throws, a publish has N = 1
subscribers at delivery time yet `totalConsumed` does not increase by
1: the increment inside the `try` block is skipped when the callback
throws. -/
theorem publish_consumed_counterexample :
    (subsFor stThrow topicX).length = 1 ∧
    stThrow.metrics.totalConsumed = 0 ∧
    ¬ ((publish stThrow topicX 1 srcSim none 3).1.metrics.totalConsumed
        = stThrow.metrics.totalConsumed + (subsFor stThrow topicX).length) := by
  decide

/-- Claim C1 (amended): for every publish on a topic, `totalPublished`
increases by exactly 1, `totalConsumed` increases by exactly the number
of subscribers present at delivery time whose callbacks return without
throwing (which equals N when none throws), and every subscriber is
invoked exactly once with the published payload; in particular, with
callbacks A and B on topic `x`, one publish of payload `1` invokes A
and B exactly once each with that payload and leaves
`totalPublished = 1`, `totalConsumed = 2`. -/
theorem publish_counts_and_trace (st : BusState) (t : Topic) (p : Payload)
    (src : String) (tgt : Option String) (lat : Nat) :
    (publish st t p src tgt lat).1.metrics.totalPublished
        = st.metrics.totalPublished + 1 ∧
    (publish st t p src tgt lat).1.metrics.totalConsumed
        = st.metrics.totalConsumed
          + ((subsFor st t).filter fun s => !s.callback.cbThrows).length ∧
    (publish st t p src tgt lat).2
        = (subsFor st t).map (fun s => (s.callback.cbId, p)) ∧
    (publish stAB topicX 1 srcSim none 3).1.metrics.totalPublished = 1 ∧
    (publish stAB topicX 1 srcSim none 3).1.metrics.totalConsumed = 2 ∧
    (publish stAB topicX 1 srcSim none 3).2 = [(1, 1), (2, 1)] := by
  refine ⟨publish_published st t p src tgt lat,
          publish_consumed st t p src tgt lat,
          publish_trace st t p src tgt lat, ?_, ?_, ?_⟩ <;> decide

/-- Claim C2 (code bug): `processMessage` returns early when the topic
has zero subscribers, BEFORE the event is removed from `messageQueue`
and before `currentDepth` is recomputed — so after a publish to a
subscriber-less topic resolves, the event is still pending and
`currentDepth` is 1, not 0.  The pending entry is leaked. -/
theorem publish_zero_subscribers_leaks_pending :
    (subsFor initialState topicY).length = 0 ∧
    (publish initialState topicY 1 srcSim none 2).1.metrics.currentDepth = 1 ∧
    (publish initialState topicY 1 srcSim none 2).1.messageQueue.length = 1 := by
  decide

/-- Claim C3 (confirmed): when some subscriber's callback throws, the
error is caught (delivery is a total function of the state — the
publish promise resolves), every subscriber on the topic — including
those registered after the thrower — is still invoked exactly once with
the payload, in registration order, and `totalConsumed` counts exactly
the non-throwing callbacks. -/
theorem publish_fault_isolation (st : BusState) (t : Topic) (p : Payload)
    (src : String) (tgt : Option String) (lat : Nat)
    (_h : ∃ s ∈ subsFor st t, s.callback.cbThrows = true) :
    (publish st t p src tgt lat).2
        = (subsFor st t).map (fun s => (s.callback.cbId, p)) ∧
    (publish st t p src tgt lat).1.metrics.totalConsumed
        = st.metrics.totalConsumed
          + ((subsFor st t).filter fun s => !s.callback.cbThrows).length :=
  ⟨publish_trace st t p src tgt lat, publish_consumed st t p src tgt lat⟩

/-- Witness for C3: five subscribers on topic `x`, the third throws;
all five are still invoked with the payload and four deliveries are
counted. -/
theorem publish_fault_isolation_witness :
    (publish st5 topicX 7 srcSim none 3).2
        = (subsFor st5 topicX).map (fun s => (s.callback.cbId, 7)) ∧
    (publish st5 topicX 7 srcSim none 3).1.metrics.totalConsumed
        = st5.metrics.totalConsumed
          + ((subsFor st5 topicX).filter fun s => !s.callback.cbThrows).length :=
  publish_fault_isolation st5 topicX 7 srcSim none 3 (by decide)

/-- Claim C4 (confirmed): publishing to a topic with zero subscribers
resolves without error (publish is total), increments `totalPublished`
by 1, leaves `totalConsumed` unchanged and invokes no callback. -/
theorem publish_no_subscribers_ok (st : BusState) (t : Topic) (p : Payload)
    (src : String) (tgt : Option String) (lat : Nat)
    (h : subsFor st t = []) :
    (publish st t p src tgt lat).1.metrics.totalPublished
        = st.metrics.totalPublished + 1 ∧
    (publish st t p src tgt lat).1.metrics.totalConsumed
        = st.metrics.totalConsumed ∧
    (publish st t p src tgt lat).2 = [] := by
  refine ⟨publish_published st t p src tgt lat, ?_, ?_⟩
  · rw [publish_consumed st t p src tgt lat, h]; rfl
  · rw [publish_trace st t p src tgt lat, h]; rfl

/-- Witness for C4: topic `y` on a fresh bus has no subscribers. -/
theorem publish_no_subscribers_ok_witness :
    (publish initialState topicY 1 srcSim none 2).1.metrics.totalPublished
        = initialState.metrics.totalPublished + 1 ∧
    (publish initialState topicY 1 srcSim none 2).1.metrics.totalConsumed
        = initialState.metrics.totalConsumed ∧
    (publish initialState topicY 1 srcSim none 2).2 = [] :=
  publish_no_subscribers_ok initialState topicY 1 srcSim none 2 (by decide)

/-! ### Registry invariants (claims C5, C6) -/

/-- All subscription ids present in the registry, in order. -/
def allIds : List (Topic × List Subscription) → List Nat
  | [] => []
  | (_, subs) :: rest => (subs.map fun s => s.id) ++ allIds rest

/-- Well-formedness the bus maintains: `Map` keys are unique, and
`generateId` never hands out the same subscription id twice. -/
def busWF (st : BusState) : Prop :=
  (st.subscribers.map Prod.fst).Nodup ∧ (allIds st.subscribers).Nodup

instance (st : BusState) : Decidable (busWF st) :=
  inferInstanceAs
    (Decidable ((st.subscribers.map Prod.fst).Nodup ∧ (allIds st.subscribers).Nodup))

/-- No subscription carries the id ⇒ the splice is the identity. -/
theorem removeFirst_of_forall (subs : List Subscription) (sid : Nat)
    (h : ∀ s ∈ subs, s.id ≠ sid) : removeFirst subs sid = subs := by
  induction subs with
  | nil => rfl
  | cons s rest ih =>
      rw [removeFirst, if_neg (h s (List.mem_cons_self s rest)),
        ih fun a ha => h a (List.mem_cons_of_mem s ha)]

theorem mapLookup_eq_none (m : List (Topic × List Subscription)) (t : Topic)
    (h : t ∉ m.map Prod.fst) : mapLookup m t = none := by
  induction m with
  | nil => rfl
  | cons kv rest ih =>
      obtain ⟨k, v⟩ := kv
      simp only [List.map_cons, List.mem_cons] at h
      push_neg at h
      simp only [mapLookup, if_neg (Ne.symm h.1)]
      exact ih h.2

theorem id_mem_allIds (m : List (Topic × List Subscription)) (t : Topic)
    (s : Subscription) (hs : s ∈ (mapLookup m t).getD []) :
    s.id ∈ allIds m := by
  induction m with
  | nil => simp [mapLookup] at hs
  | cons kv rest ih =>
      obtain ⟨k, v⟩ := kv
      simp only [mapLookup] at hs
      by_cases hk : k = t
      · rw [if_pos hk] at hs
        simp only [allIds, List.mem_append]
        exact Or.inl (List.mem_map_of_mem _ hs)
      · rw [if_neg hk] at hs
        simp only [allIds, List.mem_append]
        exact Or.inr (ih hs)

theorem lookup_ids_nodup (m : List (Topic × List Subscription)) (t : Topic)
    (hids : (allIds m).Nodup) :
    (((mapLookup m t).getD []).map fun s => s.id).Nodup := by
  induction m with
  | nil => simp [mapLookup]
  | cons kv rest ih =>
      obtain ⟨k, v⟩ := kv
      rw [allIds] at hids
      simp only [mapLookup]
      by_cases hk : k = t
      · rw [if_pos hk]
        exact hids.of_append_left
      · rw [if_neg hk]
        exact ih hids.of_append_right

theorem removeFirst_id_not_mem (subs : List Subscription) (sid : Nat)
    (h : (subs.map fun s => s.id).Nodup) :
    sid ∉ (removeFirst subs sid).map fun s => s.id := by
  induction subs with
  | nil => simp [removeFirst]
  | cons s rest ih =>
      rw [List.map_cons, List.nodup_cons] at h
      rw [removeFirst]
      by_cases hid : s.id = sid
      · rw [if_pos hid]
        rw [hid] at h
        exact h.1
      · rw [if_neg hid]
        simp only [List.map_cons, List.mem_cons]
        push_neg
        exact ⟨fun he => hid he.symm, ih h.2⟩

/-- Effect of `unsubscribe`'s registry scan on any later topic lookup:
with unique keys and globally unique subscription ids, the subscription
list of every topic loses exactly its first (hence only) subscription
carrying the id. -/
theorem lookup_unsubscribeAux (m : List (Topic × List Subscription))
    (sid : Nat) (t : Topic) (hkeys : (m.map Prod.fst).Nodup)
    (hids : (allIds m).Nodup) :
    (mapLookup (unsubscribeAux m sid) t).getD []
      = removeFirst ((mapLookup m t).getD []) sid := by
  induction m with
  | nil => rfl
  | cons kv rest ih =>
      obtain ⟨k, subs⟩ := kv
      rw [List.map_cons, List.nodup_cons] at hkeys
      rw [allIds] at hids
      have hdisj : (subs.map fun s => s.id).Disjoint (allIds rest) :=
        (List.nodup_append.mp hids).2.2
      rw [unsubscribeAux]
      by_cases hc : containsId subs sid = true
      · rw [if_pos hc]
        by_cases hkt : k = t
        · subst hkt
          rw [show mapLookup ((k, subs) :: rest) k = some subs from by
            rw [mapLookup, if_pos rfl]]
          cases hemp : (removeFirst subs sid).isEmpty
          · rw [if_neg (by simp [hemp])]
            rw [mapLookup, if_pos rfl]
            rfl
          · rw [if_pos (by simp [hemp])]
            rw [mapLookup_eq_none rest k hkeys.1]
            simp only [Option.getD_none, Option.getD_some]
            exact (List.isEmpty_iff.mp hemp).symm
        · rw [show mapLookup ((k, subs) :: rest) t = mapLookup rest t from by
            rw [mapLookup, if_neg hkt]]
          have hstep :
              mapLookup
                (if (removeFirst subs sid).isEmpty then rest
                 else (k, removeFirst subs sid) :: rest) t
              = mapLookup rest t := by
            split
            · rfl
            · rw [mapLookup, if_neg hkt]
          rw [hstep]
          have hsid : sid ∈ subs.map fun s => s.id := by
            simp only [containsId, List.any_eq_true, decide_eq_true_eq] at hc
            obtain ⟨s, hsm, hseq⟩ := hc
            exact hseq ▸ List.mem_map_of_mem _ hsm
          have hnot : sid ∉ allIds rest := fun hmem => hdisj hsid hmem
          symm
          apply removeFirst_of_forall
          intro s hs hseq
          exact hnot (hseq ▸ id_mem_allIds rest t s hs)
      · rw [if_neg hc]
        have hnone : ∀ s ∈ subs, s.id ≠ sid := by
          simp only [containsId, List.any_eq_true, decide_eq_true_eq] at hc
          push_neg at hc
          exact hc
        by_cases hkt : k = t
        · subst hkt
          rw [mapLookup, if_pos rfl, mapLookup, if_pos rfl]
          exact (removeFirst_of_forall subs sid hnone).symm
        · rw [mapLookup, if_neg hkt, mapLookup, if_neg hkt]
          exact ih hkeys.2 hids.of_append_right

/-- Claim C5 (confirmed): after `unsubscribe sid`, the topic's
subscription list is exactly the old list with the subscription `sid`
spliced out; a publish then invokes exactly the remaining subscribers,
in registration order, each once with the payload — and the removed
subscription is no longer among the delivery targets. -/
theorem publish_after_unsubscribe_trace (st : BusState) (sid : Nat)
    (t : Topic) (p : Payload) (src : String) (tgt : Option String)
    (lat : Nat) (h : busWF st) :
    subsFor (unsubscribe st sid) t = removeFirst (subsFor st t) sid ∧
    sid ∉ ((subsFor (unsubscribe st sid) t).map fun s => s.id) ∧
    (publish (unsubscribe st sid) t p src tgt lat).2
      = (removeFirst (subsFor st t) sid).map (fun s => (s.callback.cbId, p)) := by
  have hreg : subsFor (unsubscribe st sid) t = removeFirst (subsFor st t) sid :=
    lookup_unsubscribeAux st.subscribers sid t h.1 h.2
  refine ⟨hreg, ?_, ?_⟩
  · rw [hreg]
    exact removeFirst_id_not_mem (subsFor st t) sid
      (lookup_ids_nodup st.subscribers t h.2)
  · rw [publish_trace, hreg]

/-- Witness for C5: with A (id 0) and B (id 1) on topic `x`,
unsubscribing A and publishing invokes only B. -/
theorem publish_after_unsubscribe_trace_witness :
    (subsFor (unsubscribe stAB 0) topicX
        = removeFirst (subsFor stAB topicX) 0 ∧
      0 ∉ ((subsFor (unsubscribe stAB 0) topicX).map fun s => s.id) ∧
      (publish (unsubscribe stAB 0) topicX 1 srcSim none 3).2
        = (removeFirst (subsFor stAB topicX) 0).map
            (fun s => (s.callback.cbId, 1))) ∧
    (publish (unsubscribe stAB 0) topicX 1 srcSim none 3).2 = [(2, 1)] :=
  ⟨publish_after_unsubscribe_trace stAB 0 topicX 1 srcSim none 3 (by decide),
   by decide⟩

/-- The registry invariant of claim C6: no topic maps to an empty
subscription list. -/
def noEmptyTopics (st : BusState) : Prop :=
  ∀ e ∈ st.subscribers, e.2 ≠ []

instance (st : BusState) : Decidable (noEmptyTopics st) :=
  inferInstanceAs (Decidable (∀ e ∈ st.subscribers, e.2 ≠ []))

theorem unsubscribeAux_unknown (m : List (Topic × List Subscription))
    (sid : Nat) (h : sid ∉ allIds m) : unsubscribeAux m sid = m := by
  induction m with
  | nil => rfl
  | cons kv rest ih =>
      obtain ⟨k, subs⟩ := kv
      rw [allIds] at h
      simp only [List.mem_append] at h
      push_neg at h
      have hc : containsId subs sid = false := by
        simp only [containsId, List.any_eq_false, decide_eq_true_eq]
        intro s hs heq
        exact h.1 (heq ▸ List.mem_map_of_mem _ hs)
      rw [unsubscribeAux, if_neg (by simp [hc]), ih h.2]

theorem unsubscribeAux_no_empty (m : List (Topic × List Subscription))
    (sid : Nat) (h : ∀ e ∈ m, e.2 ≠ []) :
    ∀ e ∈ unsubscribeAux m sid, e.2 ≠ [] := by
  induction m with
  | nil => intro e he; simp [unsubscribeAux] at he
  | cons kv rest ih =>
      obtain ⟨k, subs⟩ := kv
      intro e he
      simp only [unsubscribeAux] at he
      split at he
      · split at he
        · exact h e (List.mem_cons_of_mem _ he)
        · rename_i hemp
          rcases List.mem_cons.mp he with he1 | he2
          · subst he1
            simpa [List.isEmpty_iff] using hemp
          · exact h e (List.mem_cons_of_mem _ he2)
      · rcases List.mem_cons.mp he with he1 | he2
        · subst he1
          exact h (k, subs) (List.mem_cons_self _ _)
        · exact ih (fun a ha => h a (List.mem_cons_of_mem _ ha)) e he2

theorem pushSub_no_empty (m : List (Topic × List Subscription)) (t : Topic)
    (s : Subscription) (h : ∀ e ∈ m, e.2 ≠ []) :
    ∀ e ∈ pushSub m t s, e.2 ≠ [] := by
  induction m with
  | nil =>
      intro e he
      rw [pushSub] at he
      rcases List.mem_cons.mp he with he1 | he2
      · subst he1; simp
      · simp at he2
  | cons kv rest ih =>
      obtain ⟨k, v⟩ := kv
      intro e he
      rw [pushSub] at he
      split at he
      · rcases List.mem_cons.mp he with he1 | he2
        · subst he1; simp
        · exact h e (List.mem_cons_of_mem _ he2)
      · rcases List.mem_cons.mp he with he1 | he2
        · subst he1
          exact h (k, v) (List.mem_cons_self _ _)
        · exact ih (fun a ha => h a (List.mem_cons_of_mem _ ha)) e he2

/-- Claim C6 (confirmed): unsubscribing an unknown id changes nothing
(and never throws — `unsubscribe` is total); and the registry never
maps a topic to an empty subscriber list: the invariant is preserved by
both `unsubscribe` (which deletes a topic entry that becomes empty) and
`subscribe`. -/
theorem unsubscribe_noop_and_no_empty_topics (st : BusState) (sid : Nat)
    (t : Topic) (cb : Cb) (src : Option String) :
    (sid ∉ allIds st.subscribers → unsubscribe st sid = st) ∧
    (noEmptyTopics st → noEmptyTopics (unsubscribe st sid)) ∧
    (noEmptyTopics st → noEmptyTopics (subscribe st t cb src).2) := by
  refine ⟨?_, ?_, ?_⟩
  · intro h
    unfold unsubscribe
    rw [unsubscribeAux_unknown st.subscribers sid h]
  · intro h
    exact unsubscribeAux_no_empty st.subscribers sid h
  · intro h e he
    simp only [subscribe] at he
    rcases hl : mapLookup st.subscribers t with _ | v
    · rw [hl] at he
      rcases List.mem_append.mp he with he1 | he2
      · exact h e he1
      · simp only [List.mem_singleton] at he2
        subst he2; simp
    · rw [hl] at he
      exact pushSub_no_empty st.subscribers t _ h e he

/-- Witness for C6: on the two-subscriber bus, unsubscribing the
unknown id 99 is a no-op, and the invariant survives unsubscribing id 0
(which leaves topic `x` non-empty registered) and a fresh subscribe. -/
theorem unsubscribe_noop_and_no_empty_topics_witness :
    unsubscribe stAB 99 = stAB ∧
    noEmptyTopics (unsubscribe stAB 99) ∧
    noEmptyTopics (subscribe stAB topicY cbA none).2 :=
  ⟨(unsubscribe_noop_and_no_empty_topics stAB 99 topicY cbA none).1 (by decide),
   (unsubscribe_noop_and_no_empty_topics stAB 99 topicY cbA none).2.1 (by decide),
   (unsubscribe_noop_and_no_empty_topics stAB 99 topicY cbA none).2.2 (by decide)⟩

/-! ### Rolling latency window (claim C7) -/

theorem window_of_le (l : List Nat) (h : l.length ≤ 100) : window l = l := by
  unfold window
  rw [Nat.sub_eq_zero_of_le h]
  exact List.drop_zero l

theorem pushLatency_length_le (l : List Nat) (x : Nat)
    (h : l.length ≤ 100) : (pushLatency l x).length ≤ 100 := by
  simp only [pushLatency]
  split <;> rename_i hc <;> simp [List.length_drop] at hc ⊢ <;> omega

/-- Folding the push-then-shift update over any sample stream keeps
exactly the last 100 samples. -/
theorem foldl_pushLatency (samples : List Nat) :
    ∀ (l : List Nat), l.length ≤ 100 →
      List.foldl pushLatency l samples = window (l ++ samples) := by
  induction samples with
  | nil =>
      intro l h
      rw [List.foldl_nil, List.append_nil, window_of_le l h]
  | cons x xs ih =>
      intro l h
      rw [List.foldl_cons, ih (pushLatency l x) (pushLatency_length_le l x h)]
      by_cases hlen : l.length + 1 > 100
      · have hpush : pushLatency l x = (l ++ [x]).drop 1 := by
          simp only [pushLatency]
          rw [if_pos (by simp [List.length_append]; omega)]
        rw [hpush]
        have hm : l ++ x :: xs = (l ++ [x]) ++ xs := by simp
        rw [hm]
        have hdrop1 : ((l ++ [x]) ++ xs).drop 1 = (l ++ [x]).drop 1 ++ xs :=
          List.drop_append_of_le_length (by simp)
        have e1 : ((l ++ [x]).drop 1 ++ xs).length - 100 = xs.length := by
          simp only [List.length_append, List.length_drop,
            List.length_singleton]
          omega
        have e2 : ((l ++ [x]) ++ xs).length - 100 = xs.length + 1 := by
          simp only [List.length_append, List.length_singleton]
          omega
        unfold window
        rw [e1, e2, ← hdrop1, List.drop_drop, Nat.add_comm 1 xs.length]
      · have hpush : pushLatency l x = l ++ [x] := by
          simp only [pushLatency]
          rw [if_neg (by simp [List.length_append]; omega)]
        rw [hpush]
        congr 1
        simp

theorem publishSeq_latencies (l : List PubInput) :
    ∀ st : BusState, (publishSeq st l).latencies
      = List.foldl pushLatency st.latencies (l.map PubInput.latSample) := by
  induction l with
  | nil => intro st; rfl
  | cons i is ih =>
      intro st
      have hstep : publishSeq st (i :: is) = publishSeq (publishStep st i) is := rfl
      rw [hstep, ih, List.map_cons, List.foldl_cons]
      have : (publishStep st i).latencies = pushLatency st.latencies i.latSample :=
        publish_latencies st i.topic i.payload i.src i.tgt i.latSample
      rw [this]

theorem publishSeq_avg :
    ∀ (l : List PubInput) (st : BusState), l ≠ [] →
      (publishSeq st l).metrics.avgLatency
        = avgOf ((publishSeq st l).latencies) := by
  intro l
  induction l with
  | nil => intro st h; exact absurd rfl h
  | cons i is ih =>
      intro st _
      cases is with
      | nil =>
          show (publishStep st i).metrics.avgLatency
            = avgOf (publishStep st i).latencies
          rw [publishStep,
            publish_avg st i.topic i.payload i.src i.tgt i.latSample,
            publish_latencies st i.topic i.payload i.src i.tgt i.latSample]
      | cons j js =>
          have hstep : publishSeq st (i :: j :: js)
              = publishSeq (publishStep st i) (j :: js) := rfl
          rw [hstep]
          exact ih (publishStep st i) (by simp)

/-- Claim C7 (confirmed): the latency window never exceeds 100 samples;
after a run of 150 publishes from a fresh bus it holds exactly the 100
most recent samples (the oldest 50 discarded) and `avgLatency` is the
rounded mean of precisely those samples. -/
theorem latency_window_bounded_and_avg :
    (∀ (st : BusState) (i : PubInput), st.latencies.length ≤ 100 →
        (publishStep st i).latencies.length ≤ 100) ∧
    (∀ inputs : List PubInput, inputs.length = 150 →
        (publishSeq initialState inputs).latencies
            = (inputs.map PubInput.latSample).drop 50 ∧
        (publishSeq initialState inputs).latencies.length = 100 ∧
        (publishSeq initialState inputs).metrics.avgLatency
            = avgOf ((inputs.map PubInput.latSample).drop 50)) := by
  constructor
  · intro st i h
    rw [publishStep, publish_latencies st i.topic i.payload i.src i.tgt i.latSample]
    exact pushLatency_length_le st.latencies i.latSample h
  · intro inputs h
    have hne : inputs ≠ [] := by
      intro hnil
      rw [hnil] at h
      exact absurd h (by decide)
    have hl : (publishSeq initialState inputs).latencies
        = (inputs.map PubInput.latSample).drop 50 := by
      rw [publishSeq_latencies inputs initialState]
      have h0 : initialState.latencies = [] := rfl
      rw [h0, foldl_pushLatency (inputs.map PubInput.latSample) [] (by simp),
        List.nil_append]
      unfold window
      rw [List.length_map, h]
    refine ⟨hl, ?_, ?_⟩
    · rw [hl, List.length_drop, List.length_map, h]
    · rw [publishSeq_avg inputs initialState hne, hl]

/-- A concrete 150-publish run: samples 0,…,149 on topic `x`. -/
def inputs150 : List PubInput :=
  (List.range 150).map fun i =>
    { topic := topicX, payload := 0, src := srcSim, tgt := none, latSample := i }

/-- Witness for C7: one publish keeps the fresh bus's window within
bound, and the 150-publish run leaves exactly 100 samples. -/
theorem latency_window_bounded_and_avg_witness :
    (publishStep initialState
        { topic := topicX, payload := 0, src := srcSim, tgt := none
          latSample := 5 }).latencies.length ≤ 100 ∧
    (publishSeq initialState inputs150).latencies.length = 100 :=
  ⟨latency_window_bounded_and_avg.1 initialState _ (by decide),
   (latency_window_bounded_and_avg.2 inputs150 (by simp [inputs150])).2.1⟩

/-! ### Gateway health claims (C9, C10) -/

/-- Claim C9 (confirmed): on each 1-second metrics tick, a service is
perturbed only when its independent gate draw falls below 0.1 (so with
probability 90% per tick its fields are untouched), and whenever it is
perturbed the latency moves by at most ±5 ms and the error rate by at
most ±0.05 — for every possible random draw. -/
theorem tickService_bounds (h : ServiceHealth) (gate r1 r2 : ℚ) (now : Nat)
    (h1 : 0 ≤ r1) (h2 : r1 < 1) (h3 : 0 ≤ r2) (h4 : r2 < 1)
    (h5 : 0 ≤ h.errorRate) :
    (1/10 ≤ gate → tickService h gate r1 r2 now = h) ∧
    |(tickService h gate r1 r2 now).latency - h.latency| ≤ 5 ∧
    |(tickService h gate r1 r2 now).errorRate - h.errorRate| ≤ 1/20 := by
  by_cases hg : gate < 1/10
  · refine ⟨fun hge => absurd hg (not_lt.mpr hge), ?_, ?_⟩
    · simp only [tickService, if_pos hg, jround]
      have hsplit : (h.latency : ℚ) + (r1 - 1/2) * 10 + 1/2
          = (h.latency : ℚ) + ((r1 - 1/2) * 10 + 1/2) := by ring
      rw [hsplit, Int.floor_int_add, add_sub_cancel_left]
      have hlow : (-5 : ℤ) ≤ ⌊((r1 - 1/2) * 10 + 1/2 : ℚ)⌋ := by
        rw [Int.le_floor]
        push_cast
        linarith
      have hup : ⌊((r1 - 1/2) * 10 + 1/2 : ℚ)⌋ < 6 := by
        rw [Int.floor_lt]
        push_cast
        linarith
      rw [abs_le]
      exact ⟨hlow, by linarith⟩
    · simp only [tickService, if_pos hg]
      have hd1 : -(1/20 : ℚ) ≤ (r2 - 1/2) * (1/10) := by linarith
      have hd2 : ((r2 - 1/2) * (1/10) : ℚ) < 1/20 := by linarith
      rcases le_or_lt 0 (h.errorRate + (r2 - 1/2) * (1/10)) with hpos | hneg
      · rw [max_eq_right hpos, add_sub_cancel_left, abs_le]
        constructor <;> linarith
      · rw [max_eq_left (le_of_lt hneg), zero_sub, abs_neg,
          abs_of_nonneg h5]
        linarith
  · have htick : tickService h gate r1 r2 now = h := by
      unfold tickService
      rw [if_neg hg]
    refine ⟨fun _ => htick, ?_, ?_⟩ <;> rw [htick, sub_self, abs_zero] <;>
      norm_num

/-- The `gateway` entry of the service registry, used as a concrete
health record. -/
def svcW : ServiceHealth :=
  { name := "API Gateway", status := ServiceStatus.healthy, uptime := "99.98%"
    latency := 12, lastCheck := 0, errorRate := 2/100 }

/-- Witness for C9: a tick of the gateway record with gate draw 0.05
(perturbation fires) keeps both changes inside the bounds. -/
theorem tickService_bounds_witness :
    (1/10 ≤ (1/20 : ℚ) → tickService svcW (1/20) 0 0 7 = svcW) ∧
    |(tickService svcW (1/20) 0 0 7).latency - svcW.latency| ≤ 5 ∧
    |(tickService svcW (1/20) 0 0 7).errorRate - svcW.errorRate| ≤ 1/20 :=
  tickService_bounds svcW (1/20) 0 0 7 (by norm_num) (by norm_num)
    (by norm_num) (by norm_num) (by norm_num [svcW])

theorem findService_eq_none (m : List (String × ServiceHealth)) (n : String)
    (h : n ∉ m.map Prod.fst) : findService m n = none := by
  induction m with
  | nil => rfl
  | cons kv rest ih =>
      obtain ⟨k, v⟩ := kv
      simp only [List.map_cons, List.mem_cons] at h
      push_neg at h
      simp only [findService, if_neg (Ne.symm h.1)]
      exact ih h.2

/-- A service name absent from the static registry. -/
def unknownService : String := "payments"

/-- Claim C10 (confirmed): `getServiceHealth(name)` performs an
unchecked `Map.get(...)!`; for any name outside the static registry the
lookup yields no record (`undefined` at runtime) despite the declared
`ServiceHealth` return type — the operation is not total over arbitrary
names. -/
theorem getServiceHealth_not_total :
    (∀ n : String, n ∉ serviceRegistry.map Prod.fst →
        getServiceHealth n = none) ∧
    ∃ n : String, getServiceHealth n = none :=
  ⟨fun n hn => findService_eq_none serviceRegistry n hn,
   ⟨unknownService, by decide⟩⟩

/-- Witness for C10: the name "payments" is not registered and its
lookup yields no record. -/
theorem getServiceHealth_not_total_witness :
    getServiceHealth unknownService = none :=
  getServiceHealth_not_total.1 unknownService (by decide)

/-! ### Anomaly archetypes (claim C8) -/

/-- A concrete random base transaction, as `generateTransaction` could
produce it. -/
def baseTxW : Transaction :=
  { id := "txn_1000", accountId := "acc_1", amount := 100, currency := "USD"
    txType := TxType.debit, category := "Utilities"
    merchant := "Electric Company"
    description := "Payment to Electric Company"
    status := TxStatus.completed, timestamp := 0
    isAnomaly := false, anomalyScore := none }

/-- Claim C8 (counterexample): the claim as stated is false — the
emission task selects archetype 0 (duplicate-payment) for the
transaction, but `generateAnomaly` draws `randomFromArray` anew; with
its draw landing on index 1 the published record carries type
`suspicious_amount` and severity `critical`, not the selected
archetype's `duplicate`/`high`. -/
theorem streamAnomaly_type_mismatch :
    archetypeAt 0 = AnomalyType.duplicate ∧
    (streamAnomaly baseTxW 0 1 0 0 1 0).type = AnomalyType.suspicious_amount ∧
    (streamAnomaly baseTxW 0 1 0 0 1 0).type ≠ archetypeAt 0 ∧
    (streamAnomaly baseTxW 0 1 0 0 1 0).severity ≠ severityFor (archetypeAt 0) := by
  refine ⟨rfl, rfl, by decide, by decide⟩

/-- Claim C8 (amended): each firing that synthesizes an anomaly selects
an archetype for the transaction, but the published record's type is
drawn INDEPENDENTLY inside `generateAnomaly` and may differ from the
selected one; whichever archetype that second draw lands on, the record
carries that archetype's type together with its fixed severity
(duplicate → high, suspicious_amount → critical, unusual_timing →
medium, frequency → low) and its templated description. -/
theorem streamAnomaly_archetype_fields (base : Transaction)
    (kSel kGen : Fin 4) (timingTs : ℤ) (scoreDraw : ℚ) (ctr : Nat)
    (now : ℤ) :
    (streamAnomaly base kSel kGen timingTs scoreDraw ctr now).type
        = archetypeAt kGen ∧
    (streamAnomaly base kSel kGen timingTs scoreDraw ctr now).severity
        = severityFor (archetypeAt kGen) ∧
    (streamAnomaly base kSel kGen timingTs scoreDraw ctr now).description
        = descriptionFor (archetypeAt kGen)
            (generateAnomalousTransaction base (archetypeAt kSel) timingTs
              scoreDraw) ∧
    severityFor AnomalyType.duplicate = Severity.high ∧
    severityFor AnomalyType.suspicious_amount = Severity.critical ∧
    severityFor AnomalyType.unusual_timing = Severity.medium ∧
    severityFor AnomalyType.frequency = Severity.low :=
  ⟨rfl, rfl, rfl, rfl, rfl, rfl, rfl⟩

end CashHeartbeat
